import Mathlib

/-!
Shallow embedding of custom_components/roborock/scene_trigger.py:
the scene selector entity (RoborockSceneSelectEntity) and the scene
trigger button (RoborockSceneTriggerButton), together with the shared
coordinator attribute selected_scenes.

Remote calls are modelled by their results: get_scenes by a value of
type Except PyErr (List Scene), execute_scene by a function from the
integer argument to Except PyErr Unit.  Python exceptions are values
of PyErr; a raised exception is an Except.error result.  Python
truthiness of an optional string (None and the empty string are falsy)
is modelled by truthyStr.  Scene identifiers are strings, matching the
annotation scene_id : str | None in the source; the int() conversion
applied before execute_scene is modelled by pyInt?, which covers
optionally negated decimal digit strings (the only shapes a scene
identifier takes here) and fails on everything else, as int() does.
-/

namespace SceneTrigger

/-- A scene as consumed by scene_trigger.py: an identifier and a
human-readable name.  Names are not guaranteed unique. -/
structure Scene where
  id : String
  name : String
deriving Repr, DecidableEq

/-- A Python exception value: either one raised by a remote call, or a
ValueError raised by the int() conversion of a scene identifier. -/
inductive PyErr where
  | api : String → PyErr
  | valueError : String → PyErr
deriving Repr, DecidableEq

/-- The shared coordinator.selected_scenes mapping from device id to the
stored selection (which may itself be None). -/
abbrev SelMap := List (String × Option String)

/-- Python dict assignment m[k] = v: replace the value at an existing
key in place, otherwise append the new entry. -/
def dictSet : SelMap → String → Option String → SelMap
  | [], k, v => [(k, v)]
  | (k', v') :: rest, k, v =>
      if k' = k then (k, v) :: rest else (k', v') :: dictSet rest k v

/-- Python dict get m.get(k): the stored value when the key is present. -/
def dictGet (m : SelMap) (k : String) : Option (Option String) :=
  List.lookup k m

/-- Python truthiness of an optional string: None and the empty string
are falsy, every other string is truthy. -/
def truthyStr : Option String → Bool
  | none => false
  | some s => !(s == "")

/-- The numeric value of a decimal digit character, none otherwise. -/
def digitVal? (c : Char) : Option Nat :=
  if c.isDigit then some (c.toNat - 48) else none

/-- Accumulate a decimal digit list into a number, failing on any
non-digit character. -/
def digitsToNat : List Char → Nat → Option Nat
  | [], acc => some acc
  | c :: cs, acc =>
      match digitVal? c with
      | none => none
      | some d => digitsToNat cs (acc * 10 + d)

/-- The Python int() conversion on the strings scene identifiers take:
an optional leading minus sign followed by at least one decimal digit;
every other string raises (none here). -/
def pyInt? (s : String) : Option Int :=
  match s.data with
  | [] => none
  | '-' :: c :: cs => (digitsToNat (c :: cs) 0).map (fun n => -(n : Int))
  | cs => (digitsToNat cs 0).map (fun n => (n : Int))

/-- The mutable fields of RoborockSceneSelectEntity that the claims
observe: the cached scene list, the selected name and the options. -/
structure SelectorState where
  scenes : List Scene
  selected_scene_name : Option String
  options : List String
deriving Repr, DecidableEq

/-- The selector field values set by RoborockSceneSelectEntity.__init__. -/
def initSelector : SelectorState :=
  { scenes := [], selected_scene_name := none, options := [] }

/-- The __init__ hasattr check-and-create of coordinator.selected_scenes:
an absent attribute is initialised to the empty dict. -/
def ensureSelectedScenes : Option SelMap → SelMap
  | none => []
  | some m => m

/-- RoborockSceneSelectEntity._fetch_scenes.  The get_scenes result is
passed in; an exception from the remote call propagates unchanged.  On
success the scene list and options are replaced, the selection defaults
to the first scene name when the list is non-empty, and the (possibly
None) selection is stored in the shared map under the device id. -/
def fetch_scenes (result : Except PyErr (List Scene)) (st : SelectorState)
    (sel : SelMap) (deviceId : String) : Except PyErr (SelectorState × SelMap) :=
  match result with
  | .error e => .error e
  | .ok scenes =>
      let selected : Option String :=
        match scenes with
        | [] => st.selected_scene_name
        | s :: _ => some s.name
      let st' : SelectorState :=
        { scenes := scenes, selected_scene_name := selected,
          options := scenes.map Scene.name }
      .ok (st', dictSet sel deviceId selected)

/-- RoborockSceneSelectEntity.async_added_to_hass: after the superclass
hook it runs the initial fetch. -/
def async_added_to_hass (result : Except PyErr (List Scene))
    (st : SelectorState) (sel : SelMap) (deviceId : String) :
    Except PyErr (SelectorState × SelMap) :=
  fetch_scenes result st sel deviceId

/-- RoborockSceneSelectEntity.async_select_option: stores the given
string verbatim as the selection and persists it in the shared map. -/
def async_select_option (st : SelectorState) (sel : SelMap)
    (deviceId opt : String) : SelectorState × SelMap :=
  ({ st with selected_scene_name := some opt }, dictSet sel deviceId (some opt))

/-- RoborockSceneSelectEntity.current_option. -/
def current_option (st : SelectorState) : Option String :=
  st.selected_scene_name

/-- Everything a press of RoborockSceneTriggerButton.async_press does
that the claims observe: whether get_scenes was invoked, which log
lines were emitted, the integer execute_scene was invoked with (none
when it was not invoked), and the overall outcome (normal return or a
propagated exception). -/
structure PressResult where
  fetchCalled : Bool
  fetchErrorLogged : Bool
  warned : Bool
  executeCalled : Option Int
  execErrorLogged : Bool
  outcome : Except PyErr Unit
deriving Repr

/-- The selection read at the top of async_press: None when the
coordinator lacks the selected_scenes attribute, otherwise the dict
get for the device id (an absent key and a stored None coincide). -/
def selectionOf (sel : Option SelMap) (deviceId : String) : Option String :=
  match sel with
  | none => none
  | some m => Option.join (dictGet m deviceId)

/-- The execution phase of async_press, reached with a truthy scene_id:
int(scene_id) is evaluated inside the try block, so a ValueError from
it is logged and re-raised like an execute_scene failure; otherwise
execute_scene is invoked and a failure is logged and re-raised. -/
def runExecute (sid : String) (execResult : Int → Except PyErr Unit) :
    PressResult :=
  match pyInt? sid with
  | none =>
      { fetchCalled := true, fetchErrorLogged := false, warned := false,
        executeCalled := none, execErrorLogged := true,
        outcome := .error (.valueError sid) }
  | some n =>
      match execResult n with
      | .ok _ =>
          { fetchCalled := true, fetchErrorLogged := false, warned := false,
            executeCalled := some n, execErrorLogged := false,
            outcome := .ok () }
      | .error e =>
          { fetchCalled := true, fetchErrorLogged := false, warned := false,
            executeCalled := some n, execErrorLogged := true,
            outcome := .error e }

/-- The body of async_press once a truthy scene name is in hand: fetch
the scene list (an exception is logged and leaves scene_id as None),
scan it for the first scene whose name equals the selection, and when
the resulting scene_id is truthy run the execution phase; a falsy
scene_id (None or the empty string) takes the warning branch. -/
def pressWithName (name : String) (fetchResult : Except PyErr (List Scene))
    (execResult : Int → Except PyErr Unit) : PressResult :=
  match fetchResult with
  | .error _ =>
      { fetchCalled := true, fetchErrorLogged := true, warned := true,
        executeCalled := none, execErrorLogged := false, outcome := .ok () }
  | .ok scenes =>
      match (scenes.find? (fun sc => sc.name == name)).map Scene.id with
      | none =>
          { fetchCalled := true, fetchErrorLogged := false, warned := true,
            executeCalled := none, execErrorLogged := false, outcome := .ok () }
      | some sid =>
          if sid = "" then
            { fetchCalled := true, fetchErrorLogged := false, warned := true,
              executeCalled := none, execErrorLogged := false, outcome := .ok () }
          else
            runExecute sid execResult

/-- RoborockSceneTriggerButton.async_press.  sel is the coordinator
selected_scenes attribute (None when absent), fetchResult the result
get_scenes would produce, execResult the result execute_scene would
produce for a given integer argument. -/
def async_press (sel : Option SelMap) (deviceId : String)
    (fetchResult : Except PyErr (List Scene))
    (execResult : Int → Except PyErr Unit) : PressResult :=
  match selectionOf sel deviceId with
  | none =>
      { fetchCalled := false, fetchErrorLogged := false, warned := true,
        executeCalled := none, execErrorLogged := false, outcome := .ok () }
  | some name =>
      if name = "" then
        { fetchCalled := false, fetchErrorLogged := false, warned := true,
          executeCalled := none, execErrorLogged := false, outcome := .ok () }
      else
        pressWithName name fetchResult execResult

/-- Looking a key up right after a dict assignment of that key returns
the assigned value. -/
theorem dictGet_dictSet (m : SelMap) (k : String) (v : Option String) :
    dictGet (dictSet m k v) k = some v := by
  induction m with
  | nil => simp [dictSet, dictGet, List.lookup]
  | cons p rest ih =>
      obtain ⟨k', v'⟩ := p
      by_cases h : k' = k
      · simp [dictSet, dictGet, List.lookup, h]
      · simp only [dictSet, dictGet, List.lookup, if_neg h]
        have hbeq : (k == k') = false := by
          simp [beq_iff_eq]
          exact fun hk => h hk.symm
        simp only [hbeq]
        exact ih

/-- Claim C1: for a device whose scene fetch returns a non-empty list,
the initial fetch leaves the options equal to the ordered scene names,
the current selection equal to the first name, and the shared map
records that default name under the device id. -/
theorem C1_initial_fetch_defaults (s0 : Scene) (rest : List Scene)
    (sel : SelMap) (d : String) (st' : SelectorState) (m' : SelMap)
    (h : fetch_scenes (.ok (s0 :: rest)) initSelector sel d = .ok (st', m')) :
    st'.options = (s0 :: rest).map Scene.name ∧
    current_option st' = some s0.name ∧
    dictGet m' d = some (some s0.name) := by
  simp only [fetch_scenes] at h
  injection h with h2
  rw [Prod.mk.injEq] at h2
  obtain ⟨h3, h4⟩ := h2
  subst h3
  subst h4
  refine ⟨rfl, rfl, ?_⟩
  exact dictGet_dictSet sel d (some s0.name)

/-- Claim C1 witness: scenes named A, B, C with ids 1, 2, 3. -/
theorem C1_witness :
    (⟨[Scene.mk "1" "A", Scene.mk "2" "B", Scene.mk "3" "C"],
        some "A", ["A", "B", "C"]⟩ : SelectorState).options =
      ([Scene.mk "1" "A", Scene.mk "2" "B", Scene.mk "3" "C"]).map Scene.name ∧
    current_option (⟨[Scene.mk "1" "A", Scene.mk "2" "B", Scene.mk "3" "C"],
        some "A", ["A", "B", "C"]⟩ : SelectorState) = some "A" ∧
    dictGet [("d", some "A")] "d" = some (some "A") :=
  C1_initial_fetch_defaults (Scene.mk "1" "A")
    [Scene.mk "2" "B", Scene.mk "3" "C"] [] "d"
    ⟨[Scene.mk "1" "A", Scene.mk "2" "B", Scene.mk "3" "C"],
      some "A", ["A", "B", "C"]⟩ [("d", some "A")] rfl

/-- Claim C2: async_select_option stores any string verbatim: afterwards
current_option returns exactly that string and the shared map records
it under the device id, with no membership validation. -/
theorem C2_select_any_string (st : SelectorState) (sel : SelMap)
    (d opt : String) :
    current_option (async_select_option st sel d opt).1 = some opt ∧
    dictGet (async_select_option st sel d opt).2 d = some (some opt) :=
  ⟨rfl, dictGet_dictSet sel d (some opt)⟩

/-- Claim C3 counterexample: with selection B and a fetched list whose
first (and only) scene named B has the empty identifier, the linear
scan does find that scene, yet execute is not called: the empty string
is falsy, so the press falls through to the warning branch. -/
theorem C3_counterexample :
    List.find? (fun sc => sc.name == "B") [Scene.mk "" "B"] =
      some (Scene.mk "" "B") ∧
    (async_press (some [("d", some "B")]) "d" (.ok [Scene.mk "" "B"])
        (fun _ => .ok ())).executeCalled = none ∧
    (async_press (some [("d", some "B")]) "d" (.ok [Scene.mk "" "B"])
        (fun _ => .ok ())).warned = true := by
  refine ⟨?_, ?_, ?_⟩ <;> rfl

/-- Claim C3 amended: with a truthy selection present, the press
re-fetches the list and resolves the identifier by a linear scan whose
first name match wins; provided that identifier is truthy (non-empty)
and int() parses it, execute is called with the parsed integer. -/
theorem C3_first_match_wins (m : SelMap) (d name : String)
    (scenes : List Scene) (execResult : Int → Except PyErr Unit)
    (sc : Scene) (n : Int)
    (hsel : selectionOf (some m) d = some name)
    (hname : name ≠ "")
    (hfind : scenes.find? (fun s => s.name == name) = some sc)
    (hid : sc.id ≠ "")
    (hparse : pyInt? sc.id = some n) :
    (async_press (some m) d (.ok scenes) execResult).fetchCalled = true ∧
    (async_press (some m) d (.ok scenes) execResult).executeCalled = some n := by
  cases hE : execResult n with
  | ok u =>
      constructor <;>
        simp [async_press, hsel, hname, pressWithName, hfind, hid,
          runExecute, hparse, hE]
  | error e =>
      constructor <;>
        simp [async_press, hsel, hname, pressWithName, hfind, hid,
          runExecute, hparse, hE]

/-- Claim C3 witness: selection B, duplicate names B at ids 2 and 3;
the earliest match (id 2) wins and execute is called with 2. -/
theorem C3_witness :
    (async_press (some [("d", some "B")]) "d"
        (.ok [Scene.mk "1" "A", Scene.mk "2" "B", Scene.mk "3" "B"])
        (fun _ => .ok ())).fetchCalled = true ∧
    (async_press (some [("d", some "B")]) "d"
        (.ok [Scene.mk "1" "A", Scene.mk "2" "B", Scene.mk "3" "B"])
        (fun _ => .ok ())).executeCalled = some 2 :=
  C3_first_match_wins [("d", some "B")] "d" "B"
    [Scene.mk "1" "A", Scene.mk "2" "B", Scene.mk "3" "B"]
    (fun _ => .ok ()) (Scene.mk "2" "B") 2 rfl (by decide) rfl (by decide) rfl

/-- Claim C4: when no truthy selection exists for the device (attribute
absent, key absent, None stored, or the empty string stored), a press
only logs a warning: get_scenes is not called, execute is not called,
and the press returns normally. -/
theorem C4_no_selection (sel : Option SelMap) (d : String)
    (fetchResult : Except PyErr (List Scene))
    (execResult : Int → Except PyErr Unit)
    (h : truthyStr (selectionOf sel d) = false) :
    async_press sel d fetchResult execResult =
      { fetchCalled := false, fetchErrorLogged := false, warned := true,
        executeCalled := none, execErrorLogged := false, outcome := .ok () } := by
  rcases hs : selectionOf sel d with _ | name
  · simp [async_press, hs]
  · rw [hs] at h
    have hname : name = "" := by simpa [truthyStr] using h
    subst hname
    simp [async_press, hs]

/-- Claim C4 witness: the selected_scenes attribute is absent. -/
theorem C4_witness :
    truthyStr (selectionOf none "d") = false ∧
    async_press none "d" (.ok []) (fun _ => .ok ()) =
      { fetchCalled := false, fetchErrorLogged := false, warned := true,
        executeCalled := none, execErrorLogged := false, outcome := .ok () } :=
  ⟨rfl, C4_no_selection none "d" (.ok []) (fun _ => .ok ()) rfl⟩

/-- Claim C5: when the execute_scene call raises, the press logs the
failure at error level and re-raises the same exception. -/
theorem C5_execute_failure_reraised (m : SelMap) (d name : String)
    (scenes : List Scene) (execResult : Int → Except PyErr Unit)
    (sc : Scene) (n : Int) (e : PyErr)
    (hsel : selectionOf (some m) d = some name)
    (hname : name ≠ "")
    (hfind : scenes.find? (fun s => s.name == name) = some sc)
    (hid : sc.id ≠ "")
    (hparse : pyInt? sc.id = some n)
    (hexec : execResult n = .error e) :
    (async_press (some m) d (.ok scenes) execResult).execErrorLogged = true ∧
    (async_press (some m) d (.ok scenes) execResult).outcome = .error e := by
  constructor <;>
    simp [async_press, hsel, hname, pressWithName, hfind, hid,
      runExecute, hparse, hexec]

/-- Claim C5 witness: execute fails with a concrete api exception. -/
theorem C5_witness :
    (async_press (some [("d", some "B")]) "d" (.ok [Scene.mk "2" "B"])
        (fun _ => .error (.api "boom"))).execErrorLogged = true ∧
    (async_press (some [("d", some "B")]) "d" (.ok [Scene.mk "2" "B"])
        (fun _ => .error (.api "boom"))).outcome = .error (.api "boom") :=
  C5_execute_failure_reraised [("d", some "B")] "d" "B" [Scene.mk "2" "B"]
    (fun _ => .error (.api "boom")) (Scene.mk "2" "B") 2 (.api "boom")
    rfl (by decide) rfl (by decide) rfl rfl

/-- Claim C6: when get_scenes raises during a press with a truthy
selection, the press logs the fetch failure at error level, never calls
execute, and returns normally (no exception propagates). -/
theorem C6_fetch_failure_swallowed (m : SelMap) (d name : String)
    (e : PyErr) (execResult : Int → Except PyErr Unit)
    (hsel : selectionOf (some m) d = some name)
    (hname : name ≠ "") :
    async_press (some m) d (.error e) execResult =
      { fetchCalled := true, fetchErrorLogged := true, warned := true,
        executeCalled := none, execErrorLogged := false, outcome := .ok () } := by
  simp [async_press, hsel, hname, pressWithName]

/-- Claim C6 witness: selection B, fetch raises an api exception. -/
theorem C6_witness :
    selectionOf (some [("d", some "B")]) "d" = some "B" ∧
    async_press (some [("d", some "B")]) "d" (.error (.api "down"))
        (fun _ => .ok ()) =
      { fetchCalled := true, fetchErrorLogged := true, warned := true,
        executeCalled := none, execErrorLogged := false, outcome := .ok () } :=
  ⟨rfl, C6_fetch_failure_swallowed [("d", some "B")] "d" "B" (.api "down")
    (fun _ => .ok ()) rfl (by decide)⟩

/-- Claim C7: when the truthy selection matches no fetched scene name,
the press finds no identifier, never calls execute, and returns
normally (only the warning is logged). -/
theorem C7_absent_name_no_execute (m : SelMap) (d name : String)
    (scenes : List Scene) (execResult : Int → Except PyErr Unit)
    (hsel : selectionOf (some m) d = some name)
    (hname : name ≠ "")
    (hnone : scenes.find? (fun s => s.name == name) = none) :
    async_press (some m) d (.ok scenes) execResult =
      { fetchCalled := true, fetchErrorLogged := false, warned := true,
        executeCalled := none, execErrorLogged := false, outcome := .ok () } := by
  simp [async_press, hsel, hname, pressWithName, hnone]

/-- Claim C7 witness: selection Z absent from the fetched list. -/
theorem C7_witness :
    selectionOf (some [("d", some "Z")]) "d" = some "Z" ∧
    async_press (some [("d", some "Z")]) "d"
        (.ok [Scene.mk "1" "A", Scene.mk "2" "B"]) (fun _ => .ok ()) =
      { fetchCalled := true, fetchErrorLogged := false, warned := true,
        executeCalled := none, execErrorLogged := false, outcome := .ok () } :=
  ⟨rfl, C7_absent_name_no_execute [("d", some "Z")] "d" "Z"
    [Scene.mk "1" "A", Scene.mk "2" "B"] (fun _ => .ok ()) rfl (by decide) rfl⟩

/-- Claim C8: an exception from get_scenes during the initial fetch on
attachment is not caught anywhere in the selector: async_added_to_hass
propagates the same exception, so the entity load fails. -/
theorem C8_initial_fetch_error_propagates (e : PyErr) (st : SelectorState)
    (sel : SelMap) (d : String) :
    async_added_to_hass (.error e) st sel d = .error e :=
  rfl

/-- Claim C9: with an empty fetched scene list, the initial fetch leaves
the selector with no options and no current selection, and any press of
the trigger for that device with an empty re-fetched list never calls
execute and returns normally. -/
theorem C9_empty_scene_list (sel : SelMap) (d : String)
    (st' : SelectorState) (m' : SelMap) (sel' : Option SelMap)
    (execResult : Int → Except PyErr Unit)
    (h : fetch_scenes (.ok []) initSelector sel d = .ok (st', m')) :
    st'.options = [] ∧ current_option st' = none ∧
    (async_press sel' d (.ok []) execResult).executeCalled = none ∧
    (async_press sel' d (.ok []) execResult).outcome = .ok () := by
  simp only [fetch_scenes, initSelector] at h
  injection h with h2
  rw [Prod.mk.injEq] at h2
  obtain ⟨h3, h4⟩ := h2
  subst h3
  refine ⟨rfl, rfl, ?_, ?_⟩ <;>
  · rcases hs : selectionOf sel' d with _ | name
    · simp [async_press, hs]
    · by_cases hn : name = ""
      · subst hn; simp [async_press, hs]
      · simp [async_press, hs, hn, pressWithName]

/-- Claim C9 witness: empty list, and a press after the user selected
the string X anyway. -/
theorem C9_witness :
    (⟨[], none, []⟩ : SelectorState).options = [] ∧
    current_option (⟨[], none, []⟩ : SelectorState) = none ∧
    (async_press (some [("d", some "X")]) "d" (.ok [])
        (fun _ => .ok ())).executeCalled = none ∧
    (async_press (some [("d", some "X")]) "d" (.ok [])
        (fun _ => .ok ())).outcome = .ok () :=
  C9_empty_scene_list [] "d" ⟨[], none, []⟩ [("d", none)]
    (some [("d", some "X")]) (fun _ => .ok ()) rfl

/-- Claim C10: after the initial fetch completes, the shared map always
holds an entry for the device id, namely the selector current selection;
with zero scenes the entry is present with value None rather than the
key being absent. -/
theorem C10_entry_always_written (scenes : List Scene) (sel : SelMap)
    (d : String) (st' : SelectorState) (m' : SelMap)
    (h : fetch_scenes (.ok scenes) initSelector sel d = .ok (st', m')) :
    dictGet m' d = some st'.selected_scene_name ∧
    (scenes = [] → dictGet m' d = some none) := by
  cases scenes with
  | nil =>
      simp only [fetch_scenes, initSelector] at h
      injection h with h2
      rw [Prod.mk.injEq] at h2
      obtain ⟨h3, h4⟩ := h2
      subst h3
      subst h4
      exact ⟨dictGet_dictSet sel d none, fun _ => dictGet_dictSet sel d none⟩
  | cons s0 rest =>
      simp only [fetch_scenes, initSelector] at h
      injection h with h2
      rw [Prod.mk.injEq] at h2
      obtain ⟨h3, h4⟩ := h2
      subst h3
      subst h4
      refine ⟨dictGet_dictSet sel d (some s0.name), ?_⟩
      intro habs
      exact absurd habs (List.cons_ne_nil s0 rest)

/-- Claim C10 witness: zero scenes leave the entry present with value
None in the shared map. -/
theorem C10_witness :
    dictGet [("d", (none : Option String))] "d" =
      some (⟨[], none, []⟩ : SelectorState).selected_scene_name ∧
    (([] : List Scene) = [] →
      dictGet [("d", (none : Option String))] "d" = some none) :=
  C10_entry_always_written [] [] "d" ⟨[], none, []⟩ [("d", none)] rfl

end SceneTrigger
